import Mathlib

/-
Verification of the client-side hydration layer of a Hugo + Svelte blog.

The relevant code lives in src/ThemeToggle.svelte, src/Search.svelte,
src/Navbar.svelte (scroll indicator), src/TableOfContents.svelte,
src/App.svelte (mermaid diagram rendering) and src/main.ts (bootstrap).
Each definition below is a shallow embedding of one of those pieces:
pure computations become Lean functions, DOM state becomes explicit
record state, the asynchronous event loop becomes an explicit step
function over event lists, and browser built-ins invoked by the code
(atob, TextDecoder, innerHTML text extraction) are modelled after their
platform specifications.
-/

namespace Blog

/-! ## Theme controller (ThemeToggle.svelte) -/

/-- The two theme states. -/
inductive Theme where
  | light
  | dark
deriving DecidableEq, Repr

/-- Whether a theme state is the dark state. -/
def Theme.isDark : Theme → Bool
  | .dark => true
  | .light => false

/-- The literal string written to localStorage for a theme state. -/
def Theme.literal : Theme → String
  | .dark => "dark"
  | .light => "light"

/-- Embedding of the onMount initial-theme resolution in ThemeToggle.svelte:
theme is dark when localStorage.theme === "dark", or when no "theme" key is
stored and the media query (prefers-color-scheme: dark) matches; in every
other case theme is light. storedTheme is the value under the "theme" key
(none when the key is absent); osPrefersDark is the media-query result. -/
def resolveInitialTheme (storedTheme : Option String) (osPrefersDark : Bool) : Theme :=
  if storedTheme = some "dark" ∨ (storedTheme = none ∧ osPrefersDark) then .dark else .light

/-- Embedding of toggleTheme in ThemeToggle.svelte: the click handler sets
theme to dark when it was light and to light otherwise. -/
def toggleTheme : Theme → Theme
  | .light => .dark
  | .dark => .light

/-- The DOM and storage state the theme effect writes: presence of the dark
marker class on the document root, and the stored "theme" key. -/
structure DomThemeState where
  rootHasDarkClass : Bool
  storedTheme : Option String
deriving DecidableEq, Repr

/-- Embedding of the reactive effect in ThemeToggle.svelte: on theme dark it
adds the root dark class and stores "dark"; otherwise it removes the class
and stores "light". -/
def applyThemeEffect : Theme → DomThemeState → DomThemeState
  | .dark, _ => { rootHasDarkClass := true, storedTheme := some "dark" }
  | .light, _ => { rootHasDarkClass := false, storedTheme := some "light" }

/-! ## Search (Search.svelte) -/

/-- A content-index entry, as fetched from /index.json. -/
structure Post where
  title : String
  permalink : String
  date : String
  tags : Option (List String)
  content : String
deriving DecidableEq, Repr

/-- The constructed Fuse matcher: its search method returns the ranked list
of matches for a query. The ranking itself belongs to the external library
and stays abstract. -/
structure FuseMatcher where
  search : String → List Post

/-- Embedding of the results effect in Search.svelte: when fuse is non-null
and the query is longer than one character, results are the first five
ranked matches; otherwise results are empty. -/
def computeResults (fuse : Option FuseMatcher) (query : String) : List Post :=
  match fuse with
  | some f => if 1 < query.length then (f.search query).take 5 else []
  | none => []

/-! ## Scroll indicator (ScrollIndicator, in Navbar.svelte) -/

/-- A JavaScript number as it appears in the scroll-progress computation:
either NaN or a finite rational. Infinite values cannot arise here because
the division below is guarded by a positivity check on its denominator. -/
inductive JsNum where
  | nan
  | fin (q : ℚ)
deriving DecidableEq, Repr

/-- JavaScript truthiness of a number: NaN and 0 are falsy. -/
def JsNum.isTruthy : JsNum → Bool
  | .nan => false
  | .fin q => decide (q ≠ 0)

/-- The JavaScript logical-or of two numbers, as used in the expression
document.body.scrollTop || document.documentElement.scrollTop. -/
def jsOr (a b : JsNum) : JsNum :=
  if a.isTruthy then a else b

/-- JavaScript subtraction: NaN propagates. -/
def jsSub : JsNum → JsNum → JsNum
  | .fin a, .fin b => .fin (a - b)
  | _, _ => .nan

/-- JavaScript multiplication: NaN propagates. -/
def jsMul : JsNum → JsNum → JsNum
  | .fin a, .fin b => .fin (a * b)
  | _, _ => .nan

/-- JavaScript division for the guarded use below: NaN propagates. Division
by zero would give an infinite value in JavaScript; that case is unreachable
in updateProgress because the denominator is checked to be positive first,
and the model maps it to NaN. -/
def jsDiv : JsNum → JsNum → JsNum
  | .fin a, .fin b => if b = 0 then .nan else .fin (a / b)
  | _, _ => .nan

/-- JavaScript comparison: any comparison with NaN is false. -/
def jsLe : JsNum → JsNum → Bool
  | .fin a, .fin b => decide (a ≤ b)
  | _, _ => false

/-- The quantities read from the DOM by the scroll handler. -/
structure ScrollEnv where
  bodyScrollTop : JsNum
  docScrollTop : JsNum
  scrollHeight : JsNum
  clientHeight : JsNum

/-- The scrollable height: documentElement.scrollHeight minus
documentElement.clientHeight. -/
def scrollableHeight (env : ScrollEnv) : JsNum :=
  jsSub env.scrollHeight env.clientHeight

/-- The raw progress expression (winScroll / height) * 100 computed in the
else-branch of updateProgress. -/
def scrollFrac (env : ScrollEnv) : JsNum :=
  jsMul (jsDiv (jsOr env.bodyScrollTop env.docScrollTop) (scrollableHeight env)) (.fin 100)

/-- Embedding of updateProgress in the ScrollIndicator component: when the
scrollable height is at most zero the progress is 0; otherwise the raw ratio
is computed, NaN is mapped to 0, and the value is clamped to [0, 100]. -/
def updateProgress (env : ScrollEnv) : ℚ :=
  if jsLe (scrollableHeight env) (.fin 0) then 0
  else
    match scrollFrac env with
    | .nan => 0
    | .fin p => min 100 (max 0 p)

/-! ## Table-of-contents click handling (TableOfContents.svelte) -/

/-- The anchor element found by closest, carrying its hash property. -/
structure Anchor where
  hash : String
deriving DecidableEq, Repr

/-- A history operation issued by the handler: pushState adds a new entry,
replaceState replaces the current one. -/
inductive HistoryOp where
  | push (url : String)
  | replace (url : String)
deriving DecidableEq, Repr

/-- Whether an optional history operation is a replacement. -/
def isHistoryReplace : Option HistoryOp → Bool
  | some (.replace _) => true
  | _ => false

/-- A window.scrollTo invocation: target offset and the smooth flag. -/
structure ScrollCmd where
  top : ℚ
  smooth : Bool
deriving DecidableEq, Repr

/-- The click-time environment read by handleTocClick: the result of
closest("a") on the click target, the set of element ids present in the
document, the bounding-rect top of the element with a given id, the current
window.scrollY, and the offsetHeight of the nav element if one exists (all
read at click time, not cached). -/
structure ClickEnv where
  targetAnchor : Option Anchor
  docIds : List String
  rectTop : String → ℚ
  scrollY : ℚ
  navbarHeight : Option ℚ

/-- The observable outcome of one click: whether default navigation was
prevented, the mobile panel state afterwards, the issued scroll command if
any, and the issued history operation if any. -/
structure TocClickResult where
  prevented : Bool
  isOpen : Bool
  scrollTo : Option ScrollCmd
  history : Option HistoryOp
deriving Repr

/-- The outcome in which the handler changed nothing. -/
def noopClick (isOpen : Bool) : TocClickResult :=
  { prevented := false, isOpen := isOpen, scrollTo := none, history := none }

/-- Embedding of handleTocClick in TableOfContents.svelte: return early when
the click target has no enclosing anchor, the anchor hash is empty, or the
hash does not start with the fragment marker (the startsWith test and the
slice that drops the marker are carried out on the character list); when the
id obtained by dropping the marker exists in the document, prevent default,
close the mobile panel, scroll smoothly to the element top plus scrollY
minus the current navbar height (64 when no nav element exists) minus 16,
and push the fragment onto the history; otherwise do nothing. -/
def handleTocClick (env : ClickEnv) (isOpen : Bool) : TocClickResult :=
  match env.targetAnchor with
  | none => noopClick isOpen
  | some target =>
    match target.hash.toList with
    | [] => noopClick isOpen
    | c :: idChars =>
      if c = '#' then
        let id := idChars.asString
        if id ∈ env.docIds then
          { prevented := true
            isOpen := false
            scrollTo := some { top := env.rectTop id + env.scrollY - env.navbarHeight.getD 64 - 16
                               smooth := true }
            history := some (.push ("#" ++ id)) }
        else noopClick isOpen
      else noopClick isOpen

/-! ## Diagram render-pass scheduling (App.svelte) -/

/-- The event-loop occurrences that drive mermaid rendering: the nested
requestAnimationFrame callback of the content effect, the MutationObserver
callback observing a class mutation on the document root, the firing of a
scheduled timeout that invokes renderMermaid (hasElements tells whether the
page holds any mermaid placeholder at that moment), and the completion of an
in-flight renderMermaid invocation. The await inside the per-placeholder
loop yields to the event loop, so other events can occur between the start
and the end of a pass. -/
inductive RenderEvent where
  | effectRaf
  | observerMutation
  | timerFire (hasElements : Bool)
  | passEnd
deriving DecidableEq, Repr

/-- The scheduling state: the mermaidBusy flag, the number of pending
timeouts that will invoke renderMermaid, the number of invocations currently
past their entry and not yet finished, and the running maximum of that
count. -/
structure RenderSched where
  mermaidBusy : Bool
  scheduled : ℕ
  inFlight : ℕ
  maxInFlight : ℕ
deriving DecidableEq, Repr

/-- The initial scheduling state. -/
def initSched : RenderSched :=
  { mermaidBusy := false, scheduled := 0, inFlight := 0, maxInFlight := 0 }

/-- One event-loop step, from App.svelte: the effect callback consults
mermaidBusy and schedules a timeout only when it is false; the observer
callback schedules a timeout unconditionally; a firing timeout invokes
renderMermaid, which returns at once when no placeholder exists and
otherwise sets mermaidBusy and enters the loop without checking the flag;
a finishing pass clears the flag. -/
def schedStep (s : RenderSched) : RenderEvent → RenderSched
  | .effectRaf => if s.mermaidBusy then s else { s with scheduled := s.scheduled + 1 }
  | .observerMutation => { s with scheduled := s.scheduled + 1 }
  | .timerFire hasElements =>
      if s.scheduled = 0 then s
      else if hasElements then
        { mermaidBusy := true
          scheduled := s.scheduled - 1
          inFlight := s.inFlight + 1
          maxInFlight := max s.maxInFlight (s.inFlight + 1) }
      else { s with scheduled := s.scheduled - 1 }
  | .passEnd =>
      if s.inFlight = 0 then s
      else { s with mermaidBusy := false, inFlight := s.inFlight - 1 }

/-- The state reached after a sequence of event-loop occurrences. -/
def schedRun (evs : List RenderEvent) : RenderSched :=
  evs.foldl schedStep initSched

/-! ## Hydration bootstrap (main.ts) -/

/-
A DOM node: an element with a tag name, an id attribute (the empty string
when no id is set) and child nodes, or a text node. The child list is
encoded as the mutual type DForest so that all recursions below are
structural.
-/
mutual
inductive DNode where
  | elem (tag : String) (idAttr : String) (children : DForest)
  | text (s : String)
inductive DForest where
  | nil
  | cons (n : DNode) (rest : DForest)
end

mutual
/-- Serialization of a forest of nodes, the innerHTML of their parent. -/
def innerHTMLF : DForest → String
  | .nil => ""
  | .cons n rest => outerHTML n ++ innerHTMLF rest

/-- Serialization of one node including its own tags. -/
def outerHTML : DNode → String
  | .text s => s
  | .elem tag idAttr cs =>
      "<" ++ tag ++ (if idAttr = "" then "" else " id=" ++ idAttr) ++ ">" ++
        innerHTMLF cs ++ "</" ++ tag ++ ">"
end

/-- The children of a node. -/
def childrenOf : DNode → DForest
  | .elem _ _ cs => cs
  | .text _ => .nil

/-- The innerHTML of a node. -/
def innerHTML (n : DNode) : String := innerHTMLF (childrenOf n)

mutual
/-- The first node in document order, the node itself included, whose id
attribute equals the requested id; models document.getElementById when
applied to the document root, since the ids queried by main.ts are
non-empty. -/
def findById : DNode → String → Option DNode
  | .text _, _ => none
  | .elem tag idAttr cs, i =>
      if idAttr = i then some (.elem tag idAttr cs) else findByIdF cs i

/-- The first node with the requested id across a forest, in order. -/
def findByIdF : DForest → String → Option DNode
  | .nil, _ => none
  | .cons n rest, i =>
      match findById n i with
      | some r => some r
      | none => findByIdF rest i
end

mutual
/-- The first node in document order whose tag equals the requested tag;
applied to the children of a node it models querySelector with a tag
selector. -/
def findByTag : DNode → String → Option DNode
  | .text _, _ => none
  | .elem tag idAttr cs, t =>
      if tag = t then some (.elem tag idAttr cs) else findByTagF cs t

/-- The first node with the requested tag across a forest, in order. -/
def findByTagF : DForest → String → Option DNode
  | .nil, _ => none
  | .cons n rest, t =>
      match findByTag n t with
      | some r => some r
      | none => findByTagF rest t
end

mutual
/-- Removal of the first node in document order carrying the requested id;
models calling remove on the element found by getElementById. The flag
reports whether a node was removed, so the scan stops at the first hit. -/
def removeFirst : DNode → String → Option DNode × Bool
  | .text s, _ => (some (.text s), false)
  | .elem tag idAttr cs, i =>
      if idAttr = i then (none, true)
      else
        match removeFirstF cs i with
        | (cs2, found) => (some (.elem tag idAttr cs2), found)

/-- Removal of the first node with the requested id across a forest. -/
def removeFirstF : DForest → String → DForest × Bool
  | .nil, _ => (.nil, false)
  | .cons n rest, i =>
      match removeFirst n i with
      | (none, _) => (rest, true)
      | (some n2, true) => (.cons n2 rest, true)
      | (some n2, false) =>
          match removeFirstF rest i with
          | (rest2, f) => (.cons n2 rest2, f)
end

/-- The props the shell is mounted with: the extracted content markup and
the extracted TOC markup. -/
structure MountProps where
  content : String
  tocHtml : String
deriving DecidableEq, Repr

/-- The DOM-mutating operations of the bootstrap, in execution order. -/
inductive BootOp where
  | removeHandoff
  | mountApp (props : MountProps)
deriving DecidableEq, Repr

/-- The outcome of the bootstrap: the ordered operation list and the
document after extraction. -/
structure BootResult where
  ops : List BootOp
  doc : DNode

/-- The document after the handoff element is removed. The fallback branch
is unreachable because the document root is the html element and never
carries the handoff id. -/
def removeHandoffDoc (doc : DNode) : DNode :=
  match removeFirst doc "hugo-content" with
  | (some d, _) => d
  | (none, _) => .text ""

/-- Embedding of main.ts: when the element with id hugo-content exists,
extract the innerHTML of its descendant with id hugo-toc (empty string when
absent), extract the innerHTML of its first main descendant (falling back to
the innerHTML of the handoff itself when no main exists), remove the handoff
element, and then mount the shell with the extracted strings; when the
handoff element is absent, mount the shell with empty strings and leave the
document unchanged. -/
def bootstrap (doc : DNode) : BootResult :=
  match findById doc "hugo-content" with
  | some source =>
      let tocHtml :=
        match findByIdF (childrenOf source) "hugo-toc" with
        | some tocEl => innerHTML tocEl
        | none => ""
      let content :=
        match findByTagF (childrenOf source) "main" with
        | some mainEl => innerHTML mainEl
        | none => innerHTML source
      { ops := [.removeHandoff, .mountApp { content := content, tocHtml := tocHtml }]
        doc := removeHandoffDoc doc }
  | none => { ops := [.mountApp { content := "", tocHtml := "" }], doc := doc }

/-- The handoff element of the server-rendered handoff contract: a container
with id hugo-content holding the TOC element (id hugo-toc) and the main
element as siblings. -/
def handoffNode (tc mc : DForest) : DNode :=
  .elem "div" "hugo-content" (.cons (.elem "div" "hugo-toc" tc) (.cons (.elem "main" "" mc) .nil))

/-- A document matching the handoff contract: the mount point and the
handoff element. -/
def contractDoc (tc mc : DForest) : DNode :=
  .elem "html" "" (.cons (.elem "div" "app" .nil) (.cons (handoffNode tc mc) .nil))

/-- The same document with the handoff element gone. -/
def emptyDoc : DNode :=
  .elem "html" "" (.cons (.elem "div" "app" .nil) .nil)

/-- A document whose handoff element holds a main element but no TOC
sub-element. -/
def noTocDoc (mc : DForest) : DNode :=
  .elem "html" ""
    (.cons (.elem "div" "app" .nil)
      (.cons (.elem "div" "hugo-content" (.cons (.elem "main" "" mc) .nil)) .nil))

/-! ## Theorems: hydration bootstrap -/

/-- Claim C6: on a contract-shaped document the bootstrap extracts the TOC
markup from the TOC sub-element, extracts the main-content markup with the
TOC excluded (the content string is the serialization of the main children
alone, whatever the TOC fragment holds), removes the handoff element from
the document, and orders the removal before the mount; when the TOC
sub-element is absent the extracted TOC string is empty; on a document
without the handoff element it mounts with empty content and TOC strings
and leaves the document unchanged. -/
theorem bootstrap_spec (tc mc : DForest) (hmain : findByTagF tc "main" = none) :
    (bootstrap (contractDoc tc mc)).ops =
      [.removeHandoff, .mountApp { content := innerHTMLF mc, tocHtml := innerHTMLF tc }] ∧
    (bootstrap (contractDoc tc mc)).doc = emptyDoc ∧
    (∀ mc2, findByIdF mc2 "hugo-toc" = none →
      (bootstrap (noTocDoc mc2)).ops =
        [.removeHandoff, .mountApp { content := innerHTMLF mc2, tocHtml := "" }]) ∧
    (∀ doc, findById doc "hugo-content" = none →
      bootstrap doc = { ops := [.mountApp { content := "", tocHtml := "" }], doc := doc }) := by
  refine ⟨?_, ?_, ?_, ?_⟩
  · simp [bootstrap, contractDoc, handoffNode, findById, findByIdF, findByTag, findByTagF,
      hmain, childrenOf, innerHTML]
  · simp [bootstrap, contractDoc, handoffNode, findById, findByIdF, removeHandoffDoc,
      removeFirst, removeFirstF, emptyDoc]
  · intro mc2 htoc
    simp [bootstrap, noTocDoc, findById, findByIdF, findByTag, findByTagF, htoc,
      childrenOf, innerHTML]
  · intro doc hnone
    simp [bootstrap, hnone]

/-- A concrete TOC fragment for the bootstrap witness. -/
def demoToc : DForest := .cons (.text "toc-markup") .nil

/-- A concrete main-content fragment for the bootstrap witness. -/
def demoMain : DForest := .cons (.text "body-markup") .nil

/-- Claim C6, witness on a concrete contract document and a concrete
document lacking the handoff element. -/
theorem bootstrap_spec_witness :
    (bootstrap (contractDoc demoToc demoMain)).ops =
      [.removeHandoff, .mountApp { content := "body-markup", tocHtml := "toc-markup" }] ∧
    (bootstrap (contractDoc demoToc demoMain)).doc = emptyDoc ∧
    (bootstrap (noTocDoc demoMain)).ops =
      [.removeHandoff, .mountApp { content := "body-markup", tocHtml := "" }] ∧
    bootstrap emptyDoc =
      { ops := [.mountApp { content := "", tocHtml := "" }], doc := emptyDoc } := by
  have h := bootstrap_spec demoToc demoMain rfl
  refine ⟨?_, h.2.1, ?_, h.2.2.2 emptyDoc rfl⟩
  · have h1 := h.1
    simpa [demoToc, demoMain, innerHTMLF, outerHTML] using h1
  · have h2 := h.2.2.1 demoMain rfl
    simpa [demoMain, innerHTMLF, outerHTML] using h2

/-! ## Theorems: render-pass scheduling -/

/-- Claim C2, counterexample. The claim states that at most one rendering
pass is in flight at any time; the trace below reaches two concurrent
passes, because the mutation-observer callback schedules a pass without
consulting mermaidBusy and the pass entry does not re-check the flag. -/
theorem render_pass_overlap_counterexample :
    (schedRun [.effectRaf, .timerFire true, .observerMutation, .timerFire true]).inFlight = 2 ∧
    (schedRun [.effectRaf, .timerFire true, .observerMutation, .timerFire true]).maxInFlight = 2 := by
  constructor <;> rfl

/-- Claim C2, amended: only the content-effect scheduling path drops
requests — when mermaidBusy is set at the time its animation-frame callback
runs, that callback schedules nothing and leaves the state unchanged. The
mutation-observer path schedules unconditionally and the pass entry does not
re-check the flag, so rendering passes can overlap. -/
theorem effect_raf_drops_when_busy (s : RenderSched) (h : s.mermaidBusy = true) :
    schedStep s .effectRaf = s ∧ (schedStep s .effectRaf).scheduled = s.scheduled := by
  constructor <;> simp [schedStep, h]

/-- Claim C2, witness: the drop applies to a concrete busy state. -/
theorem effect_raf_drops_when_busy_witness :
    schedStep { mermaidBusy := true, scheduled := 0, inFlight := 1, maxInFlight := 1 }
        .effectRaf =
      { mermaidBusy := true, scheduled := 0, inFlight := 1, maxInFlight := 1 } :=
  (effect_raf_drops_when_busy _ rfl).1

/-! ## Theorems: table-of-contents clicks -/

/-- A concrete click on an anchor whose target id exists, used for the C3
counterexample. -/
def demoClickEnv : ClickEnv :=
  { targetAnchor := some { hash := "#intro" }
    docIds := ["intro"]
    rectTop := fun _ => 500
    scrollY := 0
    navbarHeight := some 64 }

/-- Claim C3, counterexample. The claim states that the URL fragment is
updated via history replacement; the handler issues a pushState, not a
replaceState, for this click. -/
theorem toc_click_history_counterexample :
    (handleTocClick demoClickEnv true).history = some (HistoryOp.push "#intro") ∧
    isHistoryReplace (handleTocClick demoClickEnv true).history = false := by
  constructor <;> decide

/-- Claim C3, amended: for every click on a TOC entry whose target anchor id
exists, the handler prevents default navigation, closes the mobile panel,
smooth-scrolls to the offset computed from the navbar height read at click
time (defaulting to 64 with no nav element) with 16 extra padding, and
pushes the URL fragment onto the history (a pushState, not a full
navigation). -/
theorem toc_click_spec (env : ClickEnv) (isOpen : Bool) (a : Anchor) (idChars : List Char)
    (ha : env.targetAnchor = some a) (hcs : a.hash.toList = '#' :: idChars)
    (hid : idChars.asString ∈ env.docIds) :
    handleTocClick env isOpen =
      { prevented := true
        isOpen := false
        scrollTo := some { top := env.rectTop idChars.asString + env.scrollY -
                             env.navbarHeight.getD 64 - 16
                           smooth := true }
        history := some (.push ("#" ++ idChars.asString)) } := by
  have hdata : a.hash.data = '#' :: idChars := hcs
  simp [handleTocClick, ha, hdata, hid]

/-- Claim C3, witness at a concrete click. -/
theorem toc_click_spec_witness :
    handleTocClick demoClickEnv true =
      { prevented := true
        isOpen := false
        scrollTo := some { top := 420, smooth := true }
        history := some (.push "#intro") } := by
  have h := toc_click_spec demoClickEnv true { hash := "#intro" }
    (String.toList "intro") rfl (by decide) (by decide)
  rw [h]
  have hs : (("intro".toList).asString) = "intro" := by decide
  rw [hs]
  have hs2 : ("#" ++ "intro" : String) = "#intro" := by decide
  rw [hs2]
  norm_num [demoClickEnv]

/-- Claim C10: when the click target has no enclosing anchor, or the anchor
hash is empty or lacks the fragment marker, or the referenced id does not
exist in the document, the handler changes nothing: default navigation is
not prevented, no scroll or history operation is issued, and the mobile
panel state is unchanged. -/
theorem toc_click_noop (env : ClickEnv) (isOpen : Bool)
    (h : env.targetAnchor = none ∨
      ∀ a, env.targetAnchor = some a →
        a.hash.toList = [] ∨
        (∃ c cs, a.hash.toList = c :: cs ∧ c ≠ '#') ∨
        (∀ cs, a.hash.toList = '#' :: cs → cs.asString ∉ env.docIds)) :
    handleTocClick env isOpen =
      { prevented := false, isOpen := isOpen, scrollTo := none, history := none } := by
  cases hta : env.targetAnchor with
  | none => simp [handleTocClick, hta, noopClick]
  | some a =>
    rcases h with h | h
    · rw [hta] at h; exact absurd h (by simp)
    · rcases h a hta with h1 | ⟨c, cs, hcs, hc⟩ | h3
      · have h1d : a.hash.data = [] := h1
        simp [handleTocClick, hta, h1d, noopClick]
      · have hcsd : a.hash.data = c :: cs := hcs
        simp [handleTocClick, hta, hcsd, hc, noopClick]
      · cases hcs : a.hash.data with
        | nil => simp [handleTocClick, hta, hcs, noopClick]
        | cons c cs =>
          by_cases hch : c = '#'
          · subst hch
            have hmem := h3 cs hcs
            simp [handleTocClick, hta, hcs, hmem, noopClick]
          · simp [handleTocClick, hta, hcs, hch, noopClick]

/-- Claim C10, witness: a click with no enclosing anchor, and a click on an
anchor whose target id is absent, both change nothing. -/
theorem toc_click_noop_witness :
    handleTocClick { targetAnchor := none, docIds := ["intro"], rectTop := fun _ => 500,
                     scrollY := 0, navbarHeight := some 64 } true =
      { prevented := false, isOpen := true, scrollTo := none, history := none } ∧
    handleTocClick { targetAnchor := some { hash := "#missing" }, docIds := ["intro"],
                     rectTop := fun _ => 500, scrollY := 0, navbarHeight := some 64 } false =
      { prevented := false, isOpen := false, scrollTo := none, history := none } := by
  constructor
  · exact toc_click_noop _ true (Or.inl rfl)
  · refine toc_click_noop _ false (Or.inr ?_)
    intro a ha
    cases ha
    right; right
    intro cs hcs
    have hlit : ("#missing".toList) = '#' :: ("missing".toList) := by decide
    rw [hlit] at hcs
    injection hcs with h0 h1
    subst h1
    decide

/-! ## Mermaid payload decoding (App.svelte, renderMermaid)

The browser built-ins the decode path invokes are modelled after their
platform specifications: atob follows the WHATWG forgiving-base64 decode,
TextDecoder follows the WHATWG UTF-8 decode with replacement, and the
innerHTML/textContent round trip is modelled as tag stripping plus
character-reference decoding. The source converts the atob result to bytes
with codePointAt, which is the identity on the binary string atob yields,
so the model returns the byte list directly. -/

/-- ASCII whitespace, removed by forgiving-base64 decode. -/
def isAsciiWhitespaceChar (c : Char) : Bool :=
  c.toNat = 9 ∨ c.toNat = 10 ∨ c.toNat = 12 ∨ c.toNat = 13 ∨ c.toNat = 32

/-- The value of one base64 alphabet character, none outside the alphabet. -/
def b64Value (c : Char) : Option ℕ :=
  if 65 ≤ c.toNat ∧ c.toNat ≤ 90 then some (c.toNat - 65)
  else if 97 ≤ c.toNat ∧ c.toNat ≤ 122 then some (c.toNat - 97 + 26)
  else if 48 ≤ c.toNat ∧ c.toNat ≤ 57 then some (c.toNat - 48 + 52)
  else if c = '+' then some 62
  else if c = '/' then some 63
  else none

/-- Removal of one or two trailing padding characters. -/
def dropTrailingEq (cs : List Char) : List Char :=
  match cs.reverse with
  | '=' :: '=' :: rest => rest.reverse
  | '=' :: rest => rest.reverse
  | _ => cs

/-- Reassembly of 6-bit values into bytes: four values give three bytes, a
trailing pair gives one byte, a trailing triple gives two. -/
def b64Bytes : List ℕ → List ℕ
  | a :: b :: c :: d :: rest =>
      (a * 4 + b / 16) :: ((b % 16) * 16 + c / 4) :: ((c % 4) * 64 + d) :: b64Bytes rest
  | [a, b] => [a * 4 + b / 16]
  | [a, b, c] => [a * 4 + b / 16, (b % 16) * 16 + c / 4]
  | _ => []

/-- Model of atob: forgiving-base64 decode. Whitespace is removed, padding
is stripped when the length is a multiple of four, a remaining length
congruent to one modulo four or any character outside the alphabet fails,
and otherwise the 6-bit values are reassembled into bytes. -/
def atob (s : String) : Option (List ℕ) :=
  let cs0 := s.toList.filter (fun c => ¬ isAsciiWhitespaceChar c)
  let cs := if cs0.length % 4 = 0 then dropTrailingEq cs0 else cs0
  if cs.length % 4 = 1 then none
  else (cs.mapM b64Value).map b64Bytes

/-- The replacement character emitted for invalid byte sequences. -/
def replChar : Char := Char.ofNat 65533

/-- Whether a byte is a UTF-8 continuation byte. -/
def isContByte (b : ℕ) : Bool := 128 ≤ b ∧ b ≤ 191

/-- Model of TextDecoder: UTF-8 decode with replacement. Invalid lead
bytes, overlong encodings, surrogate code points and out-of-range code
points produce the replacement character; truncated trailing sequences are
simplified to a single replacement character. The fuel is the byte count,
which bounds the number of steps since every step consumes at least one
byte. -/
def utf8DecodeAux : ℕ → List ℕ → List Char
  | 0, _ => []
  | _, [] => []
  | fuel + 1, b :: rest =>
    if b < 128 then Char.ofNat b :: utf8DecodeAux fuel rest
    else if 194 ≤ b ∧ b ≤ 223 then
      match rest with
      | c1 :: rest2 =>
          if isContByte c1 then
            Char.ofNat ((b - 192) * 64 + (c1 - 128)) :: utf8DecodeAux fuel rest2
          else replChar :: utf8DecodeAux fuel rest
      | [] => [replChar]
    else if 224 ≤ b ∧ b ≤ 239 then
      match rest with
      | c1 :: c2 :: rest3 =>
          if isContByte c1 ∧ isContByte c2 then
            (if 2048 ≤ (b - 224) * 4096 + (c1 - 128) * 64 + (c2 - 128) ∧
                ((b - 224) * 4096 + (c1 - 128) * 64 + (c2 - 128) < 55296 ∨
                  57343 < (b - 224) * 4096 + (c1 - 128) * 64 + (c2 - 128)) then
              Char.ofNat ((b - 224) * 4096 + (c1 - 128) * 64 + (c2 - 128))
            else replChar) :: utf8DecodeAux fuel rest3
          else replChar :: utf8DecodeAux fuel rest
      | _ => [replChar]
    else if 240 ≤ b ∧ b ≤ 244 then
      match rest with
      | c1 :: c2 :: c3 :: rest4 =>
          if isContByte c1 ∧ isContByte c2 ∧ isContByte c3 then
            (if 65536 ≤ (b - 240) * 262144 + (c1 - 128) * 4096 + (c2 - 128) * 64 + (c3 - 128) ∧
                (b - 240) * 262144 + (c1 - 128) * 4096 + (c2 - 128) * 64 + (c3 - 128) ≤
                  1114111 then
              Char.ofNat ((b - 240) * 262144 + (c1 - 128) * 4096 + (c2 - 128) * 64 + (c3 - 128))
            else replChar) :: utf8DecodeAux fuel rest4
          else replChar :: utf8DecodeAux fuel rest
      | _ => [replChar]
    else replChar :: utf8DecodeAux fuel rest

/-- The string decoded from a UTF-8 byte list. -/
def utf8String (bytes : List ℕ) : String :=
  (utf8DecodeAux bytes.length bytes).asString

/-- Skip to just past the closing bracket of a tag. -/
def dropTag : List Char → List Char
  | [] => []
  | '>' :: rest => rest
  | _ :: rest => dropTag rest

/-- The decimal digits leading a character list. -/
def decDigits (cs : List Char) : List Char :=
  cs.takeWhile (fun c => 48 ≤ c.toNat ∧ c.toNat ≤ 57)

/-- The numeric value of a decimal digit list. -/
def decValue (cs : List Char) : ℕ :=
  cs.foldl (fun acc c => acc * 10 + (c.toNat - 48)) 0

/-- Model of the text content obtained from parsing markup into a detached
element: tags are stripped and character references (named and decimal
numeric) are decoded; a lone ampersand stays literal. The fuel is the input
length, which bounds the number of steps since every step consumes at least
one character. -/
def htmlTextAux : ℕ → List Char → List Char
  | 0, _ => []
  | _, [] => []
  | fuel + 1, '<' :: rest => htmlTextAux fuel (dropTag rest)
  | fuel + 1, '&' :: rest =>
      match rest with
      | 'a' :: 'm' :: 'p' :: ';' :: r => '&' :: htmlTextAux fuel r
      | 'l' :: 't' :: ';' :: r => '<' :: htmlTextAux fuel r
      | 'g' :: 't' :: ';' :: r => '>' :: htmlTextAux fuel r
      | 'q' :: 'u' :: 'o' :: 't' :: ';' :: r => '"' :: htmlTextAux fuel r
      | 'a' :: 'p' :: 'o' :: 's' :: ';' :: r => Char.ofNat 39 :: htmlTextAux fuel r
      | 'n' :: 'b' :: 's' :: 'p' :: ';' :: r => Char.ofNat 160 :: htmlTextAux fuel r
      | '#' :: r =>
          if decDigits r ≠ [] ∧ (r.drop (decDigits r).length).head? = some ';' then
            Char.ofNat (decValue (decDigits r)) ::
              htmlTextAux fuel (r.drop ((decDigits r).length + 1))
          else '&' :: htmlTextAux fuel rest
      | _ => '&' :: htmlTextAux fuel rest
  | fuel + 1, c :: rest => c :: htmlTextAux fuel rest

/-- The textContent of a detached element whose innerHTML was set to the
given string. -/
def htmlTextContent (s : String) : String :=
  (htmlTextAux s.toList.length s.toList).asString

/-- The catch branch of the decode: textContent, or innerText, or the raw
payload — in JavaScript the empty string is falsy, so an empty extraction
falls back to the raw payload (innerText is modelled like textContent). -/
def htmlEntityFallback (rawCode : String) : String :=
  let t := htmlTextContent rawCode
  if t = "" then rawCode else t

/-- Replacement of every literal backslash-n pair by a newline, the first
normalization step applied to the decoded payload. -/
def replaceEscapedNewlines : List Char → List Char
  | '\\' :: 'n' :: rest => '\n' :: replaceEscapedNewlines rest
  | c :: rest => c :: replaceEscapedNewlines rest
  | [] => []

/-- Whether a character is removed by the JavaScript trim operation. -/
def isJsTrimmable (c : Char) : Bool :=
  c.toNat = 9 ∨ c.toNat = 10 ∨ c.toNat = 11 ∨ c.toNat = 12 ∨ c.toNat = 13 ∨
  c.toNat = 32 ∨ c.toNat = 160 ∨ c.toNat = 65279 ∨ c.toNat = 8232 ∨ c.toNat = 8233

/-- Whitespace removal from both ends. -/
def trimList (cs : List Char) : List Char :=
  ((cs.dropWhile isJsTrimmable).reverse.dropWhile isJsTrimmable).reverse

/-- The normalization applied after decoding: rewrite escaped newlines,
strip carriage returns, trim. -/
def normalizeMermaid (s : String) : String :=
  (trimList ((replaceEscapedNewlines s.toList).filter (fun c => c ≠ '\r'))).asString

/-- Embedding of the decode step of renderMermaid: attempt base64 decoding
with Unicode-safe byte reassembly; when atob fails, treat the payload as
literal entity-decoded text; normalize either way. -/
def decodeMermaidPayload (rawCode : String) : String :=
  match atob rawCode with
  | some bytes => normalizeMermaid (utf8String bytes)
  | none => normalizeMermaid (htmlEntityFallback rawCode)

/-- Whether the needle list leads the hay list. -/
def leadsWith : List Char → List Char → Bool
  | [], _ => true
  | _ :: _, [] => false
  | a :: as, b :: bs => if a = b then leadsWith as bs else false

/-- Whether the needle occurs anywhere in the hay list. -/
def containsSub (needle : List Char) : List Char → Bool
  | [] => leadsWith needle []
  | c :: rest => leadsWith needle (c :: rest) || containsSub needle rest

/-- Model of the JavaScript includes test on strings. -/
def includesSub (hay needle : String) : Bool :=
  containsSub needle.toList hay.toList

/-! ## The per-placeholder rendering loop (App.svelte, renderMermaid) -/

/-- One mermaid placeholder as the loop observes it: whether the element is
an HTMLElement, the data-mermaid attribute, the bounding-rect dimensions,
the computed display and visibility, the current inner markup, and the
data-processed marker. -/
structure Placeholder where
  isHtmlElement : Bool
  payload : Option String
  width : ℚ
  height : ℚ
  display : String
  visibility : String
  innerHTML : String
  processed : Bool
deriving Repr

/-- The error value a rejected render call carries: whether it is an Error
instance and its message. -/
structure RenderError where
  isErrorInstance : Bool
  message : String
deriving DecidableEq, Repr

/-- The external mermaid render call: produces svg markup or rejects. -/
def RenderFn : Type := String → Except RenderError String

/-- Embedding of one iteration of the per-placeholder loop: skip non-HTML
elements, missing or empty payloads, zero-dimension and hidden elements;
otherwise decode, reset the content to the decoded source and clear the
processed marker, then render — on success install the svg and set the
marker; on an Error whose message includes the transient no-suitable-point
text, skip silently; on any other failure log and leave the placeholder
showing the decoded source. The try/catch of the source surrounds the whole
iteration, so the result is always a defined placeholder state plus an
optional log entry and no error propagates out of the iteration. -/
def processOne (render : RenderFn) (el : Placeholder) : Placeholder × Option String :=
  if el.isHtmlElement = false then (el, none)
  else
    match el.payload with
    | none => (el, none)
    | some rawCode =>
      if rawCode = "" then (el, none)
      else if el.width = 0 ∨ el.height = 0 then (el, none)
      else if el.display = "none" ∨ el.visibility = "hidden" then (el, none)
      else
        match render (decodeMermaidPayload rawCode) with
        | .ok svg =>
            ({ el with innerHTML := svg, processed := true }, none)
        | .error err =>
            if err.isErrorInstance = true ∧ includesSub err.message "suitable point" = true then
              ({ el with innerHTML := decodeMermaidPayload rawCode, processed := false }, none)
            else
              ({ el with innerHTML := decodeMermaidPayload rawCode, processed := false },
                some ("Mermaid individual render error: " ++ err.message))

/-- Embedding of the whole sequential loop: placeholders are processed in
order, results collected, log entries accumulated in order. -/
def processPass (render : RenderFn) : List Placeholder → List Placeholder × List String
  | [] => ([], [])
  | el :: rest =>
      ((processOne render el).1 :: (processPass render rest).1,
        match (processOne render el).2 with
        | some entry => entry :: (processPass render rest).2
        | none => (processPass render rest).2)

/-- The pass acts pointwise: the final states are the per-placeholder
results in order and the log is the ordered collection of per-placeholder
entries. -/
theorem processPass_map (render : RenderFn) (els : List Placeholder) :
    processPass render els =
      (els.map (fun el => (processOne render el).1),
       els.filterMap (fun el => (processOne render el).2)) := by
  induction els with
  | nil => rfl
  | cons el rest ih =>
      simp only [processPass, ih, List.map_cons, List.filterMap_cons]
      cases h2 : (processOne render el).2 <;> simp [h2]

/-! ## Theorems: diagram rendering -/

/-- Claim C8: a pass always runs to completion over every placeholder and
each outcome depends only on its own placeholder, so one failure cannot
abort the rest; a transient no-suitable-point Error is skipped silently
with no log entry, and any other render failure produces a console log
entry and leaves only that placeholder unrendered (showing its decoded
source, unmarked). -/
theorem mermaid_pass_isolation (render : RenderFn) (els : List Placeholder) :
    (processPass render els).1 = els.map (fun el => (processOne render el).1) ∧
    (processPass render els).2 = els.filterMap (fun el => (processOne render el).2) ∧
    (processPass render els).1.length = els.length ∧
    (∀ el rawCode err,
      el.isHtmlElement = true → el.payload = some rawCode → rawCode ≠ "" →
      ¬(el.width = 0 ∨ el.height = 0) → ¬(el.display = "none" ∨ el.visibility = "hidden") →
      render (decodeMermaidPayload rawCode) = .error err →
      ((err.isErrorInstance = true ∧ includesSub err.message "suitable point" = true →
        processOne render el =
          ({ el with innerHTML := decodeMermaidPayload rawCode, processed := false }, none)) ∧
       (¬(err.isErrorInstance = true ∧ includesSub err.message "suitable point" = true) →
        processOne render el =
          ({ el with innerHTML := decodeMermaidPayload rawCode, processed := false },
            some ("Mermaid individual render error: " ++ err.message))))) := by
  refine ⟨?_, ?_, ?_, ?_⟩
  · rw [processPass_map]
  · rw [processPass_map]
  · rw [processPass_map]; exact List.length_map _ _
  · intro el rawCode err hhtml hpay hne hdim hvis hren
    constructor
    · intro hskip
      simp [processOne, hhtml, hpay, hne, hdim, hvis, hren, hskip]
    · intro hother
      simp [processOne, hhtml, hpay, hne, hdim, hvis, hren, hother]

/-- A concrete render function for witnesses: accepts one diagram source,
rejects everything else with a parse Error. -/
def demoRender : RenderFn := fun code =>
  if code = "A-->B" then .ok "<svg>demo</svg>"
  else .error { isErrorInstance := true, message := "Parse error" }

/-- A visible placeholder holding a well-formed raw payload. -/
def goodEl : Placeholder :=
  { isHtmlElement := true, payload := some "A-->B", width := 100, height := 50,
    display := "block", visibility := "visible", innerHTML := "", processed := false }

/-- A visible placeholder holding a malformed raw payload. -/
def badEl : Placeholder :=
  { isHtmlElement := true, payload := some "X-->Y", width := 100, height := 50,
    display := "block", visibility := "visible", innerHTML := "", processed := false }

/-- Claim C8, witness: on a page with one well-formed and one malformed
diagram the pass completes over both, the malformed one is left unrendered
with a log entry, and the well-formed one is unaffected. -/
theorem mermaid_pass_isolation_witness :
    (processPass demoRender [goodEl, badEl]).1 =
      [(processOne demoRender goodEl).1, (processOne demoRender badEl).1] ∧
    (processPass demoRender [goodEl, badEl]).1.length = 2 ∧
    processOne demoRender badEl =
      ({ badEl with innerHTML := decodeMermaidPayload "X-->Y", processed := false },
        some ("Mermaid individual render error: Parse error")) := by
  have h := mermaid_pass_isolation demoRender [goodEl, badEl]
  refine ⟨?_, ?_, ?_⟩
  · rw [h.1]; rfl
  · rw [h.2.2.1]; rfl
  · have hdec : decodeMermaidPayload "X-->Y" = "X-->Y" := by decide
    have hxy : ("X-->Y" = "A-->B") = False := by simp
    have hren : demoRender (decodeMermaidPayload "X-->Y") =
        Except.error { isErrorInstance := true, message := "Parse error" } := by
      rw [hdec]; simp [demoRender, hxy]
    have h4 := h.2.2.2 badEl "X-->Y"
      { isErrorInstance := true, message := "Parse error" }
      rfl rfl (by decide) (by norm_num [badEl]) (by decide) hren
    exact h4.2 (by decide)

/-- Claim C7: for the raw non-base64 payload the base64 attempt fails, the
fallback treats the payload as literal entity-decoded text, and a
successful render leaves the placeholder processed with non-empty markup,
with no error escaping the per-placeholder handler. -/
theorem mermaid_decode_fallback_spec (render : RenderFn) (svg : String) (el : Placeholder)
    (hel : el = goodEl) (hrender : render "A-->B" = Except.ok svg) (hsvg : svg ≠ "") :
    atob "A-->B" = none ∧
    decodeMermaidPayload "A-->B" = "A-->B" ∧
    processOne render el = ({ el with innerHTML := svg, processed := true }, none) ∧
    (processOne render el).1.innerHTML ≠ "" := by
  subst hel
  have hdec : decodeMermaidPayload "A-->B" = "A-->B" := by decide
  have hproc : processOne render goodEl =
      ({ goodEl with innerHTML := svg, processed := true }, none) := by
    simp [processOne, goodEl, hdec, hrender]
  refine ⟨by decide, hdec, hproc, ?_⟩
  rw [hproc]
  exact hsvg

/-- A concrete render function that succeeds on every source, echoing it
inside svg markup. -/
def demoRenderOk : RenderFn := fun code => .ok ("<svg>" ++ code ++ "</svg>")

/-- Claim C7, witness: the fallback branch on the concrete payload, with a
succeeding renderer. -/
theorem mermaid_decode_fallback_witness :
    atob "A-->B" = none ∧
    decodeMermaidPayload "A-->B" = "A-->B" ∧
    processOne demoRenderOk goodEl =
      ({ goodEl with innerHTML := "<svg>A-->B</svg>", processed := true }, none) := by
  have happ : ("<svg>" ++ "A-->B" ++ "</svg>" : String) = "<svg>A-->B</svg>" := by decide
  have h := mermaid_decode_fallback_spec demoRenderOk "<svg>A-->B</svg>" goodEl rfl
    (by simp [demoRenderOk, happ]) (by decide)
  exact ⟨h.1, h.2.1, h.2.2.1⟩

/-! ## Theorems: theme controller -/

/-- Claim C1, counterexample. The claim states that with no storage key and
no OS dark preference the resolved initial state is dark; the code resolves
that input to light. -/
theorem theme_initial_default_counterexample :
    resolveInitialTheme none false = Theme.light ∧
    resolveInitialTheme none false ≠ Theme.dark := by
  constructor <;> decide

/-- Claim C1, amended: at component mount the Theme Controller uses the
persisted preference when one is stored; otherwise it follows the OS
color-scheme signal; with no storage key and no OS dark preference it
resolves to light, not dark. -/
theorem theme_initial_resolution (storedTheme : Option String) (osPrefersDark : Bool) :
    (storedTheme = some "dark" → resolveInitialTheme storedTheme osPrefersDark = Theme.dark) ∧
    (storedTheme = some "light" → resolveInitialTheme storedTheme osPrefersDark = Theme.light) ∧
    (storedTheme = none →
      resolveInitialTheme storedTheme osPrefersDark =
        (if osPrefersDark then Theme.dark else Theme.light)) := by
  refine ⟨?_, ?_, ?_⟩ <;> intro h <;> subst h <;> cases osPrefersDark <;> decide

/-- Claim C1, witness for the amended theorem at concrete inputs. -/
theorem theme_initial_resolution_witness :
    resolveInitialTheme (some "dark") false = Theme.dark ∧
    resolveInitialTheme (some "light") true = Theme.light ∧
    resolveInitialTheme none true = Theme.dark := by
  refine ⟨(theme_initial_resolution (some "dark") false).1 rfl,
          (theme_initial_resolution (some "light") true).2.1 rfl, ?_⟩
  have h := (theme_initial_resolution none true).2.2 rfl
  simpa using h

/-- Claim C4: every toggle click negates the theme state, and after the
reactive effect runs the root dark class is present exactly when the new
state is dark and the stored value is the literal string of the new state. -/
theorem toggle_theme_spec (t : Theme) (d : DomThemeState) :
    (toggleTheme t).isDark = !t.isDark ∧
    (applyThemeEffect (toggleTheme t) d).rootHasDarkClass = (toggleTheme t).isDark ∧
    (applyThemeEffect (toggleTheme t) d).storedTheme = some (toggleTheme t).literal := by
  cases t <;> exact ⟨rfl, rfl, rfl⟩

/-! ## Theorems: search -/

/-- Claim C5: when the matcher is constructed and the query is longer than
one character, the results are the top at-most-five ranked matches; when the
matcher is missing or the query has length at most one, the results are
empty. -/
theorem search_results_spec (fuse : Option FuseMatcher) (query : String) :
    (∀ f, fuse = some f → 1 < query.length →
      computeResults fuse query = (f.search query).take 5 ∧
      (computeResults fuse query).length ≤ 5) ∧
    (fuse = none → computeResults fuse query = []) ∧
    (query.length ≤ 1 → computeResults fuse query = []) := by
  refine ⟨?_, ?_, ?_⟩
  · intro f hf hq
    subst hf
    constructor
    · simp [computeResults, hq]
    · have h5 : ((f.search query).take 5).length ≤ 5 := by
        rw [List.length_take]; exact min_le_left _ _
      simp only [computeResults, hq, if_pos]
      exact h5
  · intro hf; subst hf; rfl
  · intro hq
    cases fuse with
    | none => rfl
    | some f =>
      have : ¬ (1 < query.length) := by omega
      simp [computeResults, this]

/-- A concrete content-index entry used in witnesses. -/
def demoPost : Post :=
  { title := "Go Channels"
    permalink := "/posts/go-channels/"
    date := "2025-02-21"
    tags := some ["go", "concurrency"]
    content := "channels in go" }

/-- A concrete matcher used in witnesses: every query matches demoPost. -/
def demoMatcher : FuseMatcher :=
  { search := fun _ => [demoPost] }

/-- Claim C5, witness at concrete inputs. -/
theorem search_results_spec_witness :
    computeResults (some demoMatcher) "chan" = [demoPost] ∧
    computeResults none "chan" = [] ∧
    computeResults (some demoMatcher) "c" = [] := by
  refine ⟨?_, ?_, ?_⟩
  · have h := ((search_results_spec (some demoMatcher) "chan").1 demoMatcher rfl (by decide)).1
    simpa [demoMatcher] using h
  · exact (search_results_spec none "chan").2.1 rfl
  · exact (search_results_spec (some demoMatcher) "c").2.2 (by decide)

/-! ## Theorems: scroll indicator -/

/-- Claim C9: the scroll progress always lies in [0, 100]; a zero or
negative scrollable height gives exactly 0; a NaN ratio gives exactly 0. -/
theorem scroll_progress_bounds (env : ScrollEnv) :
    (0 ≤ updateProgress env ∧ updateProgress env ≤ 100) ∧
    (∀ q : ℚ, scrollableHeight env = JsNum.fin q → q ≤ 0 → updateProgress env = 0) ∧
    (scrollFrac env = JsNum.nan → updateProgress env = 0) := by
  refine ⟨?_, ?_, ?_⟩
  · unfold updateProgress
    by_cases hle : jsLe (scrollableHeight env) (.fin 0) = true
    · simp [hle]
    · simp only [hle, if_neg, Bool.not_eq_true]
      cases hp : scrollFrac env with
      | nan => simp
      | fin p =>
        constructor
        · exact le_min (by norm_num) (le_max_left 0 p)
        · exact min_le_left _ _
  · intro q hq hq0
    unfold updateProgress
    have : jsLe (scrollableHeight env) (.fin 0) = true := by
      rw [hq]; simpa [jsLe] using hq0
    simp [this]
  · intro hnan
    unfold updateProgress
    by_cases hle : jsLe (scrollableHeight env) (.fin 0) = true
    · simp [hle]
    · simp [hle, hnan]

/-- Claim C9, witness: a page with no scrollable overflow reports zero, and
a concrete mid-scroll state stays within bounds. -/
theorem scroll_progress_bounds_witness :
    updateProgress { bodyScrollTop := .fin 0, docScrollTop := .fin 50,
                     scrollHeight := .fin 400, clientHeight := .fin 400 } = 0 ∧
    0 ≤ updateProgress { bodyScrollTop := .fin 0, docScrollTop := .fin 50,
                         scrollHeight := .fin 500, clientHeight := .fin 400 } ∧
    updateProgress { bodyScrollTop := .fin 0, docScrollTop := .fin 50,
                     scrollHeight := .fin 500, clientHeight := .fin 400 } ≤ 100 := by
  refine ⟨?_, ?_, ?_⟩
  · exact (scroll_progress_bounds _).2.1 0 (by simp [scrollableHeight, jsSub]) (by norm_num)
  · exact ((scroll_progress_bounds _).1).1
  · exact ((scroll_progress_bounds _).1).2

end Blog
